import Mathlib

/-!
Verification of the RealtimeVoiceToText client session engine.

The definitions below are a shallow embedding of the React client in
`src/src/App.tsx` (with the type declarations of `src/src/types.ts`):

* `TranscriptionMessage`, `AISummary`, `ActionItem` mirror the interfaces of
  `types.ts`; optional TypeScript fields become `Option`.
* `ClientState` mirrors the seven `useState` variables of the `App` component.
* `handleMessage` is the body of the `ws.onmessage` handler (the `switch` on
  `data.type` after a successful `JSON.parse`); `onMessage` adds the
  surrounding `try/catch`, where a message that fails to parse is modelled as
  `none` and leaves the state untouched.
* `AppModel` / `step` give an event-level semantics of one recording session:
  server messages, audio chunks (`mediaRecorder.ondataavailable`), the stop
  button (`stopRecording`), the unmount cleanup (which calls the mount-render
  `stopRecording` closure), the Clear button (`clearAll`), and the firing of
  the 1-second auto-summary `setTimeout` armed by `stopRecording`.

JavaScript semantics captured explicitly: string truthiness (`jsTruthy`),
the `||` default operator (`jsOr`), `String.prototype.trim` on ASCII
whitespace (`jsTrim`), and React closure capture — the `setTimeout` callback
in `stopRecording` reads the `transcription` binding of the render that
created the closure, not the state at firing time, so each armed timer stores
the transcript value captured when `stopRecording` ran.
-/

namespace VoiceApp

/- ---------------------------------------------------------------- -/
/- Data model, from src/src/types.ts                                 -/
/- ---------------------------------------------------------------- -/

/-- Model of the `ActionItem` interface of `types.ts`. -/
structure ActionItem where
  task : String
  responsible_party : Option String
  deadline : Option String
deriving DecidableEq

/-- Model of the `AISummary` interface of `types.ts` (the fields the client
reads; the remaining optional fields play no role in any claim). -/
structure AISummary where
  summary : Option String
  key_points : List String
  action_items : List ActionItem
  error : Option String
deriving DecidableEq

/-- Model of the `TranscriptionMessage` interface of `types.ts`:
messages received over the WebSocket, with optional fields as `Option`. -/
structure TranscriptionMessage where
  type : String
  text : Option String
  is_final : Option Bool
  message : Option String
  full_transcript : Option String
  speaker : Option Nat
  word_count : Option Nat
deriving DecidableEq

/-- The seven `useState` variables of the `App` component in `App.tsx`. -/
structure ClientState where
  isRecording : Bool
  transcription : String
  interimText : String
  connectionStatus : String
  error : String
  aiSummary : Option AISummary
  isGeneratingSummary : Bool
deriving DecidableEq

/-- The initial values passed to `useState` in `App.tsx`. -/
def initialState : ClientState :=
  { isRecording := false, transcription := "", interimText := "",
    connectionStatus := "Disconnected", error := "", aiSummary := none,
    isGeneratingSummary := false }

/- ---------------------------------------------------------------- -/
/- JavaScript semantics helpers                                      -/
/- ---------------------------------------------------------------- -/

/-- JavaScript truthiness of an optional string: `undefined` and the empty
string are falsy. -/
def jsTruthy : Option String → Bool
  | none => false
  | some s => !(s == "")

/-- JavaScript `a || b` for an optional string `a`: the default is used when
`a` is `undefined` or empty (falsy). -/
def jsOr : Option String → String → String
  | none, d => d
  | some s, d => if s == "" then d else s

/-- JavaScript `String.prototype.trim` restricted to ASCII whitespace,
written over the character list so that it evaluates in the kernel. -/
def jsTrim (s : String) : String :=
  ⟨((s.data.dropWhile Char.isWhitespace).reverse.dropWhile Char.isWhitespace).reverse⟩

/- ---------------------------------------------------------------- -/
/- ws.onmessage, from src/src/App.tsx                                -/
/- ---------------------------------------------------------------- -/

/-- The `switch (data.type)` body of `ws.onmessage` in `App.tsx`, run on a
successfully parsed message.  Mirrors the source exactly: the
`transcription` case is guarded by `if (data.text)` (JS truthiness), a final
result replaces `transcription` with `data.full_transcript || ''` and clears
`interimText`, a non-final result replaces `interimText`; `connection_status`
sets the status when `data.message` is truthy; `error` sets the error string
with the default text `Unknown error occurred`; any other type only logs. -/
def handleMessage (s : ClientState) (data : TranscriptionMessage) : ClientState :=
  if data.type = "transcription" then
    if jsTruthy data.text then
      if data.is_final = some true then
        { s with transcription := jsOr data.full_transcript "", interimText := "" }
      else
        { s with interimText := data.text.getD "" }
    else s
  else if data.type = "connection_status" then
    if jsTruthy data.message then { s with connectionStatus := data.message.getD "" }
    else s
  else if data.type = "error" then
    { s with error := jsOr data.message "Unknown error occurred" }
  else s

/-- The whole `ws.onmessage` handler: the raw frame is modelled by the result
of `JSON.parse` (`none` when parsing throws); the surrounding `try/catch`
only logs a parse failure, leaving every piece of state unchanged. -/
def onMessage (s : ClientState) (raw : Option TranscriptionMessage) : ClientState :=
  match raw with
  | none => s
  | some data => handleMessage s data

/-- Processing a sequence of inbound frames in arrival order. -/
def processMessages (s : ClientState) (ms : List (Option TranscriptionMessage)) : ClientState :=
  ms.foldl onMessage s

/- ---------------------------------------------------------------- -/
/- Session lifecycle model, from src/src/App.tsx                     -/
/- ---------------------------------------------------------------- -/

/-- The body of the POST request that `generateSummary` sends to
`/api/summarize`: `{text: transcription, summary_type: summaryType}`. -/
structure SummaryRequest where
  text : String
  summary_type : String
deriving DecidableEq

/-- `WebSocket.OPEN` (readyState 1). -/
def wsOPEN : Nat := 1

/-- One mounted `App` component during one recording session.

* `state` is the React state (the `useState` variables).
* `wsReadyState` models `websocketRef.current`: `none` when the ref is
  `null`, `some n` for a socket with `readyState = n`.
* `pendingAuto` holds the auto-summary timers armed by `stopRecording`, in
  arming order.  Each entry stores the value of the `transcription` binding
  captured by the `setTimeout` closure, i.e. the state of the render that
  created the running `stopRecording` — later `setTranscription` calls do not
  change a closure that was already created.
* `autoRequests` records every automatic `/api/summarize` request issued.
* `audioSent` / `audioDropped` count the chunks forwarded or discarded by
  `mediaRecorder.ondataavailable`. -/
structure AppModel where
  state : ClientState
  wsReadyState : Option Nat
  pendingAuto : List String
  autoRequests : List SummaryRequest
  audioSent : Nat
  audioDropped : Nat
deriving DecidableEq

/-- Events of one session, serialized in the order the browser runs them
(React commits pending state updates between two distinct events). -/
inductive SessionEvent where
  /-- A WebSocket frame arrives; `none` is a frame `JSON.parse` rejects. -/
  | serverMessage (raw : Option TranscriptionMessage)
  /-- `mediaRecorder.ondataavailable` fires with a chunk of `size` bytes. -/
  | audioChunk (size : Nat)
  /-- The main button is clicked while recording (the `onClick` handler
  dispatches `stopRecording` only when `isRecording` is true; otherwise it
  would start a new session, which is outside this single-session model). -/
  | stopClick
  /-- The Clear button is clicked (`clearAll`; the button is disabled while
  both `transcription` and `aiSummary` are empty). -/
  | clearClick
  /-- The component unmounts: the `useEffect` cleanup calls the
  mount-render `stopRecording` closure, whose captured `transcription` is the
  initial value `""`. -/
  | unmountCleanup
  /-- The earliest pending `setTimeout` of `stopRecording` fires: if the
  captured transcript has non-blank content, `generateSummary()` runs and
  issues the automatic request with the default type `meeting`. -/
  | timerFire

/-- The effects every `stopRecording` run performs: stop the recorder and
tracks, close and null the WebSocket, set `isRecording` to false, and arm the
1-second auto-summary timer over the closure-captured transcript. -/
def stopEffects (m : AppModel) (captured : String) : AppModel :=
  { m with
      state := { m.state with isRecording := false }
      wsReadyState := none
      pendingAuto := m.pendingAuto ++ [captured] }

/-- One step of the session semantics; each branch is read off the
corresponding handler in `App.tsx`. -/
def step (m : AppModel) : SessionEvent → AppModel
  | .serverMessage raw => { m with state := onMessage m.state raw }
  | .audioChunk size =>
      if size > 0 ∧ m.wsReadyState = some wsOPEN then
        { m with audioSent := m.audioSent + 1 }
      else
        { m with audioDropped := m.audioDropped + 1 }
  | .stopClick =>
      if m.state.isRecording then stopEffects m m.state.transcription else m
  | .clearClick =>
      if m.state.transcription = "" ∧ m.state.aiSummary = none then m
      else
        { m with state :=
            { m.state with
                transcription := ""
                interimText := ""
                aiSummary := none
                error := "" } }
  | .unmountCleanup => stopEffects m ""
  | .timerFire =>
      match m.pendingAuto with
      | [] => m
      | captured :: rest =>
          if jsTrim captured = "" then { m with pendingAuto := rest }
          else
            { m with
                pendingAuto := rest
                autoRequests := m.autoRequests ++ [⟨captured, "meeting"⟩]
                state :=
                  { m.state with
                      aiSummary := none
                      error := ""
                      isGeneratingSummary := true } }

/-- Running a sequence of session events. -/
def runSession (m : AppModel) (es : List SessionEvent) : AppModel :=
  es.foldl step m

/-- The model right after `startRecording` succeeds on client state `s`:
`connectWebSocket` has set the status to `Connected` and cleared the error,
the socket is `OPEN`, recording is on, and no timer or request exists yet.
`startRecording` does not clear `transcription`, so `s` is arbitrary. -/
def startModel (s : ClientState) : AppModel :=
  { state := { s with isRecording := true, connectionStatus := "Connected", error := "" }
    wsReadyState := some wsOPEN
    pendingAuto := []
    autoRequests := []
    audioSent := 0
    audioDropped := 0 }

/- ---------------------------------------------------------------- -/
/- String prefix-extension and auxiliary definitions                 -/
/- ---------------------------------------------------------------- -/

/-- `StrLe a b` means `b` is a prefix-extension of `a`: it keeps `a`
unchanged and only appends after it. -/
def StrLe (a b : String) : Prop := ∃ t, b = a ++ t

/-- A message applies the final-result branch of the handler when it is a
`transcription` message with truthy text and `is_final` set. -/
def FinalApplies (d : TranscriptionMessage) : Prop :=
  d.type = "transcription" ∧ jsTruthy d.text = true ∧ d.is_final = some true

instance (d : TranscriptionMessage) : Decidable (FinalApplies d) := by
  unfold FinalApplies; infer_instance

/-- A trace of inbound frames is well formed for the client when every final
result carries a `full_transcript` snapshot that extends the transcript the
client holds at the moment the frame is processed — the guarantee the
server-side assembler provides by only ever appending to its transcript. -/
inductive GoodTrace : ClientState → List (Option TranscriptionMessage) → Prop
  | nil (s : ClientState) : GoodTrace s []
  | cons (s : ClientState) (raw : Option TranscriptionMessage)
      (ms : List (Option TranscriptionMessage))
      (hhead : ∀ d, raw = some d → FinalApplies d →
        StrLe s.transcription (jsOr d.full_transcript ""))
      (htail : GoodTrace (onMessage s raw) ms) : GoodTrace s (raw :: ms)

/-- The pending timers whose captured transcript is not blank — the only
timers that can still turn into an automatic request. -/
def liveTimers (l : List String) : List String :=
  l.filter (fun t => !(jsTrim t == ""))

/-- One unit of budget while the stop button can still run `stopRecording`. -/
def recFlag : Bool → Nat
  | true => 1
  | false => 0

/-- Upper-bound potential for automatic summary requests: requests already
issued, plus pending timers whose captured transcript is non-blank, plus one
if the session can still reach `stopRecording` from the stop button. -/
def autoBudget (m : AppModel) : Nat :=
  m.autoRequests.length
    + (liveTimers m.pendingAuto).length
    + recFlag m.state.isRecording

/- ---------------------------------------------------------------- -/
/- Concrete inputs used by the claim theorems                        -/
/- ---------------------------------------------------------------- -/

/-- A `transcription`-type message without speaker or word-count fields. -/
def resultMsg (tx : Option String) (fin : Option Bool) (ft : Option String) :
    TranscriptionMessage :=
  { type := "transcription", text := tx, is_final := fin, message := none,
    full_transcript := ft, speaker := none, word_count := none }

/-- A client that has already accumulated the transcript `"hello world"`. -/
def c1State : ClientState :=
  { initialState with transcription := "hello world" }

/-- A final result whose `full_transcript` snapshot is shorter than the
transcript the client currently holds. -/
def c1Msg : TranscriptionMessage :=
  resultMsg (some "x") (some true) (some "x")

/-- First final of a well-formed trace from the empty transcript. -/
def c1TraceMsgA : TranscriptionMessage :=
  resultMsg (some "a") (some true) (some "a")

/-- Second final of a well-formed trace, extending the first snapshot. -/
def c1TraceMsgB : TranscriptionMessage :=
  resultMsg (some "b") (some true) (some "a b")

/-- Final result arriving before the stop click in the C3 scenario. -/
def c3Final1 : TranscriptionMessage :=
  resultMsg (some "hello") (some true) (some "hello")

/-- Final result arriving during the quiet interval in the C3 scenario. -/
def c3Final2 : TranscriptionMessage :=
  resultMsg (some "world") (some true) (some "hello world")

/-- Session run: one final, stop, a second final during the quiet interval,
then the auto-summary timer fires. -/
def c3Run : AppModel :=
  runSession (startModel initialState)
    [.serverMessage (some c3Final1), .stopClick, .serverMessage (some c3Final2), .timerFire]

/-- The four messages of the C4 scenario. -/
def c4I1 : TranscriptionMessage := resultMsg (some "hel") (some false) none

/-- Second interim of the C4 scenario. -/
def c4I2 : TranscriptionMessage := resultMsg (some "hell") (some false) none

/-- Third interim of the C4 scenario. -/
def c4I3 : TranscriptionMessage := resultMsg (some "hello") (some false) none

/-- Closing final of the C4 scenario, carrying the cumulative snapshot. -/
def c4F : TranscriptionMessage := resultMsg (some "hello world") (some true) (some "hello world")

/-- Client states after each message of the C4 scenario. -/
def c4S1 : ClientState := onMessage initialState (some c4I1)

/-- State after the second interim. -/
def c4S2 : ClientState := onMessage c4S1 (some c4I2)

/-- State after the third interim. -/
def c4S3 : ClientState := onMessage c4S2 (some c4I3)

/-- State after the closing final. -/
def c4S4 : ClientState := onMessage c4S3 (some c4F)

/-- A session whose WebSocket ref has been nulled (e.g. after stop). -/
def c5Model : AppModel :=
  { startModel initialState with wsReadyState := none }

/-- Final result giving the client a non-empty transcript before stop. -/
def c6Final : TranscriptionMessage :=
  resultMsg (some "hello") (some true) (some "hello")

/-- Session run: a final, the stop click (capturing `"hello"`), then the
Clear button during the quiet interval — emptying the transcript before the
timer fires. -/
def c6Pre : AppModel :=
  runSession (startModel initialState)
    [.serverMessage (some c6Final), .stopClick, .clearClick]

/-- A stopped session whose armed timer captured a whitespace-only
transcript. -/
def c6WitnessModel : AppModel :=
  { state := initialState, wsReadyState := none, pendingAuto := ["  "],
    autoRequests := [], audioSent := 0, audioDropped := 0 }

/-- An interim result tagged with a speaker id. -/
def c8Msg (sp : Nat) : TranscriptionMessage :=
  { type := "transcription", text := some "a", is_final := some false, message := none,
    full_transcript := none, speaker := some sp, word_count := some 1 }

/-- A final result with empty text and otherwise arbitrary fields. -/
def emptyFinalMsg (msgf ft : Option String) (sp wc : Option Nat) : TranscriptionMessage :=
  { type := "transcription", text := some "", is_final := some true,
    message := msgf, full_transcript := ft, speaker := sp, word_count := wc }

/-- A message whose type matches none of the three handled cases. -/
def c10Msg : TranscriptionMessage :=
  { type := "speaker_update", text := some "x", is_final := some true,
    message := some "m", full_transcript := some "y", speaker := some 3,
    word_count := some 7 }

/- ---------------------------------------------------------------- -/
/- Helper theorems                                                   -/
/- ---------------------------------------------------------------- -/

theorem strLe_refl (a : String) : StrLe a a := by
  refine ⟨"", ?_⟩
  cases a with
  | mk l => exact congrArg String.mk (List.append_nil l).symm

theorem strAppend_assoc (a b c : String) : a ++ b ++ c = a ++ (b ++ c) := by
  cases a with
  | mk la =>
    cases b with
    | mk lb =>
      cases c with
      | mk lc => exact congrArg String.mk (List.append_assoc la lb lc)

theorem strLe_trans {a b c : String} (h1 : StrLe a b) (h2 : StrLe b c) : StrLe a c := by
  obtain ⟨t, ht⟩ := h1
  obtain ⟨u, hu⟩ := h2
  exact ⟨t ++ u, by rw [hu, ht, strAppend_assoc]⟩

theorem strLength_append (a b : String) : (a ++ b).length = a.length + b.length := by
  cases a with
  | mk la =>
    cases b with
    | mk lb => exact List.length_append la lb

theorem onMessage_isRecording (s : ClientState) (raw : Option TranscriptionMessage) :
    (onMessage s raw).isRecording = s.isRecording := by
  cases raw with
  | none => rfl
  | some d =>
    unfold onMessage handleMessage
    (repeat' split) <;> rfl

theorem handleMessage_final (s : ClientState) (d : TranscriptionMessage)
    (h : FinalApplies d) :
    (handleMessage s d).transcription = jsOr d.full_transcript "" := by
  obtain ⟨h1, h2, h3⟩ := h
  simp [handleMessage, h1, h2, h3]

theorem handleMessage_not_final (s : ClientState) (d : TranscriptionMessage)
    (h : ¬ FinalApplies d) :
    (handleMessage s d).transcription = s.transcription := by
  unfold handleMessage
  by_cases h1 : d.type = "transcription"
  · by_cases h2 : jsTruthy d.text = true
    · by_cases h3 : d.is_final = some true
      · exact absurd ⟨h1, h2, h3⟩ h
      · simp [h1, h2, h3]
    · simp [h1, h2]
  · simp only [h1, if_false]
    split
    · split
      · rfl
      · rfl
    · split
      · rfl
      · rfl

theorem onMessage_transcription_le (s : ClientState) (raw : Option TranscriptionMessage)
    (h : ∀ d, raw = some d → FinalApplies d →
      StrLe s.transcription (jsOr d.full_transcript "")) :
    StrLe s.transcription (onMessage s raw).transcription := by
  cases raw with
  | none => exact strLe_refl _
  | some d =>
    by_cases hf : FinalApplies d
    · rw [show onMessage s (some d) = handleMessage s d from rfl,
        handleMessage_final s d hf]
      exact h d rfl hf
    · rw [show onMessage s (some d) = handleMessage s d from rfl,
        handleMessage_not_final s d hf]
      exact strLe_refl _

theorem liveTimers_append (l1 l2 : List String) :
    liveTimers (l1 ++ l2) = liveTimers l1 ++ liveTimers l2 :=
  List.filter_append ..

theorem liveTimers_cons_blank (t : String) (l : List String) (h : jsTrim t = "") :
    liveTimers (t :: l) = liveTimers l := by
  unfold liveTimers
  rw [List.filter_cons]
  simp [h]

theorem liveTimers_cons_nonblank (t : String) (l : List String) (h : ¬ jsTrim t = "") :
    liveTimers (t :: l) = t :: liveTimers l := by
  unfold liveTimers
  rw [List.filter_cons]
  simp [h]

theorem liveTimers_single_le (t : String) : (liveTimers [t]).length ≤ 1 :=
  List.length_filter_le _ _

theorem recFlag_le_one (b : Bool) : recFlag b ≤ 1 := by
  cases b <;> decide

theorem step_autoBudget (m : AppModel) (e : SessionEvent) :
    autoBudget (step m e) ≤ autoBudget m := by
  cases e with
  | serverMessage raw =>
    simp only [step, autoBudget, onMessage_isRecording]
    exact Nat.le_refl _
  | audioChunk size =>
    simp only [step]
    split <;> exact Nat.le_refl _
  | stopClick =>
    simp only [step]
    split
    · rename_i hrec
      simp only [autoBudget, stopEffects, hrec, liveTimers_append,
        List.length_append, recFlag]
      have hone := liveTimers_single_le m.state.transcription
      omega
    · exact Nat.le_refl _
  | clearClick =>
    simp only [step]
    split
    · exact Nat.le_refl _
    · exact Nat.le_refl _
  | unmountCleanup =>
    simp only [step, autoBudget, stopEffects, liveTimers_append,
      List.length_append, recFlag]
    have hz : (liveTimers [""]).length = 0 := by decide
    rw [hz]
    have hf := recFlag_le_one m.state.isRecording
    omega
  | timerFire =>
    simp only [step]
    split
    · exact Nat.le_refl _
    · rename_i captured rest heq
      by_cases hc : jsTrim captured = ""
      · simp only [hc, if_true, autoBudget, heq, liveTimers_cons_blank _ _ hc]
        exact Nat.le_refl _
      · simp only [hc, if_false, autoBudget, heq, List.length_append,
          liveTimers_cons_nonblank _ _ hc, List.length_cons, List.length_nil]
        omega

theorem runSession_autoBudget (m : AppModel) (es : List SessionEvent) :
    autoBudget (runSession m es) ≤ autoBudget m := by
  induction es generalizing m with
  | nil => exact Nat.le_refl _
  | cons e es ih =>
    exact Nat.le_trans (ih (step m e)) (step_autoBudget m e)

theorem autoRequests_le_budget (m : AppModel) :
    m.autoRequests.length ≤ autoBudget m := by
  unfold autoBudget
  omega

/- ---------------------------------------------------------------- -/
/- Claim C1                                                          -/
/- ---------------------------------------------------------------- -/

/-- Claim C1 (counterexample).  The claim states that for every sequence of
transcription result messages, the client transcript after processing each
message is a prefix-extension of its value before — never shortened or
rewritten.  This fails on the code: the final-result branch of `ws.onmessage`
executes `setTranscription(data.full_transcript || '')`, trusting the
server-sent snapshot outright.  Processing a final result carrying
`full_transcript = "x"` while the client holds `"hello world"` rewrites the
transcript to `"x"`, which is not a prefix-extension of `"hello world"`. -/
theorem c1_counterexample :
    (onMessage c1State (some c1Msg)).transcription = "x" ∧
    ¬ StrLe c1State.transcription (onMessage c1State (some c1Msg)).transcription := by
  constructor
  · decide
  · rintro ⟨t, ht⟩
    have h2 : (onMessage c1State (some c1Msg)).transcription = "x" := by decide
    have hc : c1State.transcription = "hello world" := rfl
    rw [h2, hc] at ht
    have hl := congrArg String.length ht
    rw [strLength_append] at hl
    have e1 : ("x" : String).length = 1 := by decide
    have e2 : ("hello world" : String).length = 11 := by decide
    rw [e1, e2] at hl
    omega

/-- Claim C1 (amended).  Processing a message either leaves `transcription`
unchanged or — for a final transcription result with truthy text — replaces
it with the message's `full_transcript` snapshot.  Monotonic prefix-extension
therefore holds exactly under the upstream guarantee: provided every final
result's `full_transcript` extends the transcript the client holds when that
message is processed (`GoodTrace`), the transcript after processing any
message sequence is a prefix-extension of its value before.  The client
itself replaces rather than appends, so without that assumption the
transcript can be shortened or rewritten. -/
theorem c1_amended_monotonic (s : ClientState) (ms : List (Option TranscriptionMessage))
    (h : GoodTrace s ms) :
    StrLe s.transcription (processMessages s ms).transcription := by
  induction h with
  | nil s => exact strLe_refl _
  | cons s raw ms hhead htail ih =>
    exact strLe_trans (onMessage_transcription_le s raw hhead) ih

/-- Witness for the amended C1 theorem: a concrete two-final well-formed
trace from the empty transcript. -/
theorem c1_amended_monotonic_witness :
    StrLe initialState.transcription
      (processMessages initialState [some c1TraceMsgA, some c1TraceMsgB]).transcription :=
  c1_amended_monotonic initialState [some c1TraceMsgA, some c1TraceMsgB]
    (GoodTrace.cons _ _ _
      (fun d hd _ => by cases hd; exact ⟨"a", by decide⟩)
      (GoodTrace.cons _ _ _
        (fun d hd _ => by cases hd; exact ⟨" b", by decide⟩)
        (GoodTrace.nil _)))

/- ---------------------------------------------------------------- -/
/- Claim C2                                                          -/
/- ---------------------------------------------------------------- -/

/-- Claim C2.  Across every event sequence of one session lifecycle —
including sequences where the stop-and-settle path runs twice, e.g. a stop
click followed by the unmount cleanup invoking `stopRecording` again, with
both armed timers firing — at most one automatic summarization request is
issued to `/api/summarize`.  The stop button dispatches `stopRecording` only
while `isRecording` is true (and `stopRecording` clears that flag), and the
unmount cleanup runs the mount-render closure whose captured transcript is
the initial `""`, which the timer guard `if (transcription.trim())` rejects;
so at most one armed timer can ever carry non-blank text. -/
theorem c2_at_most_one_auto_summary (s : ClientState) (es : List SessionEvent) :
    (runSession (startModel s) es).autoRequests.length ≤ 1 := by
  have h1 := autoRequests_le_budget (runSession (startModel s) es)
  have h2 := runSession_autoBudget (startModel s) es
  have h3 : autoBudget (startModel s) = 1 := rfl
  omega

/- ---------------------------------------------------------------- -/
/- Claim C3                                                          -/
/- ---------------------------------------------------------------- -/

/-- Claim C3 (code bug, evaluated at the failing input).  The claim — and
the comment in `stopRecording` (`"Wait 1 second for any final transcription
to arrive, then generate summary"`) — say the automatic request carries the
transcript snapshot as it is at trigger time, including finals that arrive
during the quiet interval.  The code instead reads `transcription` from the
closure created when `stopRecording` ran (a stale React closure): in the run
below the client transcript is `"hello world"` when the timer fires, yet the
issued request carries only the stop-time capture `"hello"`. -/
theorem c3_stale_snapshot :
    c3Run.state.transcription = "hello world" ∧
    c3Run.autoRequests = [{ text := "hello", summary_type := "meeting" }] := by
  decide

/- ---------------------------------------------------------------- -/
/- Claim C4                                                          -/
/- ---------------------------------------------------------------- -/

/-- Claim C4.  For interim results `"hel"`, `"hell"`, `"hello"` followed by
the final `"hello world"`, the interim text takes exactly the values
`"hel"`, `"hell"`, `"hello"`, `""` (each interim fully replaces the previous
one and the final clears it), while the transcript is untouched by the
interims and gains exactly the single segment `"hello world"` at the end. -/
theorem c4_interim_replace :
    (c4S1.interimText = "hel" ∧ c4S1.transcription = "") ∧
    (c4S2.interimText = "hell" ∧ c4S2.transcription = "") ∧
    (c4S3.interimText = "hello" ∧ c4S3.transcription = "") ∧
    (c4S4.interimText = "" ∧ c4S4.transcription = "hello world") := by
  decide

/- ---------------------------------------------------------------- -/
/- Claim C5                                                          -/
/- ---------------------------------------------------------------- -/

/-- Claim C5.  `mediaRecorder.ondataavailable` forwards a chunk only when
`websocketRef.current?.readyState === WebSocket.OPEN`: whenever the session's
socket is absent or not `OPEN`, an arriving audio chunk is dropped — the
send counter is untouched and the drop counter increments — so zero send
calls occur outside the open state. -/
theorem c5_audio_dropped_outside_open (m : AppModel) (size : Nat)
    (h : m.wsReadyState ≠ some wsOPEN) :
    (step m (.audioChunk size)).audioSent = m.audioSent ∧
    (step m (.audioChunk size)).audioDropped = m.audioDropped + 1 := by
  have hcond : ¬ (size > 0 ∧ m.wsReadyState = some wsOPEN) := fun hc => h hc.2
  simp only [step]
  rw [if_neg hcond]
  exact ⟨rfl, rfl⟩

/-- Witness for C5 at a concrete closed session and a 5-byte chunk. -/
theorem c5_audio_dropped_outside_open_witness :
    (step c5Model (.audioChunk 5)).audioSent = c5Model.audioSent ∧
    (step c5Model (.audioChunk 5)).audioDropped = c5Model.audioDropped + 1 :=
  c5_audio_dropped_outside_open c5Model 5 (by decide)

/- ---------------------------------------------------------------- -/
/- Claim C6                                                          -/
/- ---------------------------------------------------------------- -/

/-- Claim C6 (counterexample).  The claim states that if the transcript is
empty at the moment the quiet-period trigger fires, no summarization request
is issued.  The code tests the stop-time closure capture instead of the
state at fire time: after a final `"hello"`, a stop click, and a Clear click
during the quiet interval, the client transcript is empty when the timer
fires, yet the timer still issues a request (carrying the stale capture
`"hello"`). -/
theorem c6_counterexample :
    c6Pre.state.transcription = "" ∧
    c6Pre.autoRequests = [] ∧
    (step c6Pre .timerFire).autoRequests = [{ text := "hello", summary_type := "meeting" }] := by
  decide

/-- Claim C6 (amended).  The emptiness guard applies to the transcript
snapshot captured when `stopRecording` ran, not to the transcript at fire
time: a timer whose captured transcript is empty or whitespace-only fires
without issuing any request — `/api/summarize` is not called for that
session stop. -/
theorem c6_amended_empty_capture_no_request (m : AppModel) (t : String)
    (rest : List String) (hq : m.pendingAuto = t :: rest) (ht : jsTrim t = "") :
    (step m .timerFire).autoRequests = m.autoRequests := by
  simp [step, hq, ht]

/-- Witness for the amended C6 theorem: a stopped session whose armed timer
captured the whitespace-only transcript `"  "`. -/
theorem c6_amended_empty_capture_no_request_witness :
    (step c6WitnessModel .timerFire).autoRequests = c6WitnessModel.autoRequests :=
  c6_amended_empty_capture_no_request c6WitnessModel "  " [] rfl (by decide)

/- ---------------------------------------------------------------- -/
/- Claim C7                                                          -/
/- ---------------------------------------------------------------- -/

/-- Claim C7.  A final transcription result whose text is the empty string
is rejected by the `if (data.text)` truthiness guard, so processing it
leaves the whole client state — in particular the transcript — unchanged,
whatever `full_transcript` or other fields it carries. -/
theorem c7_empty_final_noop (s : ClientState) (msgf ft : Option String)
    (sp wc : Option Nat) :
    onMessage s (some (emptyFinalMsg msgf ft sp wc)) = s := rfl

/- ---------------------------------------------------------------- -/
/- Claim C8                                                          -/
/- ---------------------------------------------------------------- -/

/-- Claim C8 (counterexample).  The claim states that the client updates
`currentSpeaker` to the last observed tag and keeps
`speakerCount = max(speakerCount, speaker+1)`, so that the tag sequence
0, 1, 0 yields `speakerCount = 2`.  No such update exists in `App.tsx`: the
`ws.onmessage` handler never reads `data.speaker`, and none of the component
state tracks speakers (the optional `AppState` fields in `types.ts` are
never written).  Concretely, the two-speaker run below (tags 0, 1, 0) ends
in exactly the same client state as the one-speaker run (tags 0, 0, 0);
were the claimed `currentSpeaker`/`speakerCount` bookkeeping present, the
two states would differ. -/
theorem c8_counterexample :
    processMessages initialState [some (c8Msg 0), some (c8Msg 1), some (c8Msg 0)]
      = processMessages initialState [some (c8Msg 0), some (c8Msg 0), some (c8Msg 0)] := by
  decide

/-- Claim C8 (amended).  The session message handler ignores the `speaker`
field entirely: two messages differing only in their speaker tag produce
identical client states, and the client maintains no `currentSpeaker` or
`speakerCount`. -/
theorem c8_amended_speaker_ignored (s : ClientState) (d : TranscriptionMessage)
    (sp1 sp2 : Option Nat) :
    onMessage s (some { d with speaker := sp1 })
      = onMessage s (some { d with speaker := sp2 }) := by
  cases d
  rfl

/- ---------------------------------------------------------------- -/
/- Claim C9                                                          -/
/- ---------------------------------------------------------------- -/

/-- Claim C9.  A malformed (unparseable) inbound frame hits the `catch`
around `JSON.parse`, which only logs: any number of consecutive malformed
frames leaves the entire client state — transcription, interim text,
connection status, error — unchanged and never terminates the session.  The
handler contains no escalation path at all, so the condition "escalated only
if such errors repeat beyond a small tolerance" holds (vacuously: escalation
never occurs, for any repetition count `n`). -/
theorem c9_malformed_dropped (s : ClientState) (n : Nat) :
    processMessages s (List.replicate n none) = s := by
  induction n with
  | zero => rfl
  | succ n ih =>
    rw [List.replicate_succ]
    exact ih

/- ---------------------------------------------------------------- -/
/- Claim C10                                                         -/
/- ---------------------------------------------------------------- -/

/-- Claim C10.  A parsed message whose `type` is none of `transcription`,
`connection_status`, `error` falls into the `default` case of the `switch`,
which only logs: the whole client state — transcription, interim text,
connection status, error, AI summary, recording flag — is unchanged. -/
theorem c10_unknown_type_noop (s : ClientState) (d : TranscriptionMessage)
    (h1 : d.type ≠ "transcription") (h2 : d.type ≠ "connection_status")
    (h3 : d.type ≠ "error") :
    onMessage s (some d) = s := by
  simp [onMessage, handleMessage, h1, h2, h3]

/-- Witness for C10: a concrete message of type `speaker_update` with every
optional field populated leaves the initial state unchanged. -/
theorem c10_unknown_type_noop_witness :
    onMessage initialState (some c10Msg) = initialState :=
  c10_unknown_type_noop initialState c10Msg (by decide) (by decide) (by decide)

end VoiceApp
